import Mathlib

/-!
Verification of the Arithmetic-Sequence repository.

The repository contains two Streamlit apps, `src/app.py` (arithmetic only)
and `src/appy.py` (arithmetic and geometric).  Python floats are modelled
as exact rationals (ℚ); the integer `num_terms` widget value is modelled
as ℤ.  `range(n)` over an integer `n` is the list `[0, ..., n-1]`, empty
for `n ≤ 0`, which is `List.range n.toNat`.
-/

namespace App

/-- `generate_arithmetic_sequence` from `src/app.py` (lines 3–19):
builds `[first_term + i * common_difference for i in range(num_terms)]`
by appending in a loop. -/
def generate_arithmetic_sequence (a d : ℚ) (n : ℤ) : List ℚ :=
  (List.range n.toNat).map (fun i : ℕ => a + (i : ℚ) * d)

end App

namespace Appy

/-- `generate_arithmetic_sequence` from `src/appy.py` (lines 3–19):
textually identical to the copy in `src/app.py`. -/
def generate_arithmetic_sequence (a d : ℚ) (n : ℤ) : List ℚ :=
  (List.range n.toNat).map (fun i : ℕ => a + (i : ℚ) * d)

/-- `generate_geometric_sequence` from `src/appy.py` (lines 21–37):
builds `[first_term * common_ratio ** i for i in range(num_terms)]`.
Python evaluates `0.0 ** 0` to `1.0`, matching `(0 : ℚ) ^ 0 = 1`. -/
def generate_geometric_sequence (a r : ℚ) (n : ℤ) : List ℚ :=
  (List.range n.toNat).map (fun i : ℕ => a * r ^ i)

end Appy

/-- The observable outcome of one run of `main`, restricted to the
sequence pipeline: either a validation error message shown via
`st.error` followed by `return` (no sequence is ever generated), or
the generated sequence. -/
inductive MainOutcome where
  | validationError : String → MainOutcome
  | generated : List ℚ → MainOutcome
deriving DecidableEq

/-- The sequence-kind radio button of `src/appy.py` (line 52). -/
inductive SequenceKind where
  | arithmetic
  | geometric
deriving DecidableEq

namespace App

/-- The validation-and-generation core of `main` in `src/app.py`
(lines 66–79): `num_terms <= 0` and `num_terms > 1000` are rejected
with `st.error` and an early `return` before
`generate_arithmetic_sequence` is called. -/
def mainOutcome (a d : ℚ) (n : ℤ) : MainOutcome :=
  if n ≤ 0 then .validationError "Number of terms must be a positive integer!"
  else if n > 1000 then .validationError "Number of terms cannot exceed 1000!"
  else .generated (generate_arithmetic_sequence a d n)

end App

namespace Appy

/-- The validation-and-generation core of `main` in `src/appy.py`
(lines 100–119): the same two bound checks with early `return`,
then the generator selected by the radio button runs. -/
def mainOutcome (k : SequenceKind) (a p : ℚ) (n : ℤ) : MainOutcome :=
  if n ≤ 0 then .validationError "Number of terms must be a positive integer!"
  else if n > 1000 then .validationError "Number of terms cannot exceed 1000!"
  else .generated (match k with
    | .arithmetic => generate_arithmetic_sequence a p n
    | .geometric => generate_geometric_sequence a p n)

end Appy

/-- Python's `int(x)` on a float: truncation toward zero.  On ℚ this is
the floor for nonnegative arguments and the ceiling for negative ones. -/
def intTrunc (x : ℚ) : ℤ :=
  if 0 ≤ x then ⌊x⌋ else ⌈x⌉

/-- Round-half-even to the nearest integer, the rounding mode Python's
fixed-point `format` uses for `f"{x:.2f}"`. -/
def roundHalfEven (x : ℚ) : ℤ :=
  let f := ⌊x⌋
  if x - f < 1/2 then f
  else if x - f > 1/2 then f + 1
  else if Even f then f else f + 1

/-- The two fractional digits of the `.2f` rendering: `d < 100` printed
as exactly two decimal digit characters. -/
def twoDigits (d : ℕ) : String :=
  String.mk [Char.ofNat (48 + d / 10), Char.ofNat (48 + d % 10)]

/-- Python's `f"{x:.2f}"` on the exact value `x`: round `100 * x`
half-even to an integer `k`, print the sign of `x`, the integer part
`|k| / 100`, a point, and the two remaining digits. -/
def formatTwoDecimals (x : ℚ) : String :=
  let k := roundHalfEven (100 * x)
  (if x < 0 then "-" else "") ++ toString (k.natAbs / 100) ++ "." ++ twoDigits (k.natAbs % 100)

/-- The inline number formatting of `src/appy.py` (lines 146–149):
`str(int(term)) if term == int(term) else f"{term:.2f}"`. -/
def format_number (x : ℚ) : String :=
  if x = (intTrunc x : ℚ) then toString (intTrunc x)
  else formatTwoDecimals x

/-- The sequence display of `src/appy.py` (line 158): `", ".join(...)`
over the formatted elements. -/
def format_sequence (l : List ℚ) : String :=
  String.intercalate ", " (l.map format_number)

/-- The largest finite IEEE-754 double, (2^53 − 1) · 2^971, as an exact
rational. -/
def DBL_MAX : ℚ := (2 ^ 53 - 1) * 2 ^ 971

/-- CPython float exponentiation `r ** i` for a finite float r and a
nonnegative int i: raises OverflowError when the result leaves the
finite double range (unlike float `*` and `+`, which overflow silently
to infinities); otherwise the value, kept exact here.  The sub-ulp
rounding boundary of the overflow test is idealized to an exact
comparison with the largest finite double. -/
def powOvf (r : ℚ) (i : ℕ) : Except String ℚ :=
  if DBL_MAX < |r ^ i| then .error "OverflowError" else .ok (r ^ i)

/-- Left-to-right traversal of a Python `for` loop whose body may raise:
the first raise aborts the loop and propagates; otherwise the list of
results is returned. -/
def mapExcept (f : ℕ → Except String ℚ) : List ℕ → Except String (List ℚ)
  | [] => .ok []
  | i :: is =>
    match f i with
    | .error e => .error e
    | .ok q =>
      match mapExcept f is with
      | .error e => .error e
      | .ok qs => .ok (q :: qs)

namespace Appy

/-- `generate_geometric_sequence` from `src/appy.py` (lines 21–37) with
the error path of CPython float `**` modelled: `common_ratio ** i` can
raise OverflowError, which aborts the loop; the surrounding
multiplication by `first_term` never raises. -/
def generate_geometric_sequence_ovf (a r : ℚ) (n : ℤ) : Except String (List ℚ) :=
  mapExcept (fun i : ℕ =>
    match powOvf r i with
    | .error e => .error e
    | .ok p => .ok (a * p)) (List.range n.toNat)

end Appy

/-! ## Helper lemmas -/

theorem intercalate_go_append (s : String) (l : List String) : ∀ x y : String,
    String.intercalate.go (x ++ y) s l = x ++ String.intercalate.go y s l := by
  induction l with
  | nil => intro x y; rfl
  | cons z l ih =>
      intro x y
      show String.intercalate.go (x ++ y ++ s ++ z) s l
        = x ++ String.intercalate.go (y ++ s ++ z) s l
      rw [String.append_assoc (x ++ y) s z, String.append_assoc x y (s ++ z),
        ← String.append_assoc y s z]
      exact ih x (y ++ s ++ z)

theorem intercalate_cons_cons (s a b : String) (l : List String) :
    String.intercalate s (a :: b :: l) = a ++ s ++ String.intercalate s (b :: l) := by
  show String.intercalate.go (a ++ s ++ b) s l = a ++ s ++ String.intercalate.go b s l
  exact intercalate_go_append s l (a ++ s) b

theorem sum_arith_range (a d : ℚ) (m : ℕ) :
    ((List.range m).map (fun i : ℕ => a + (i : ℚ) * d)).sum
      = (m : ℚ) / 2 * (2 * a + ((m : ℚ) - 1) * d) := by
  induction m with
  | zero => simp
  | succ k ih =>
      rw [List.range_succ, List.map_append, List.sum_append, ih]
      push_cast
      ring_nf
      simp [List.sum_cons]
      ring

theorem charOfNat_digit : ∀ k < 10, (Char.ofNat (48 + k)).isDigit = true := by decide

theorem twoDigits_len_digits (d : ℕ) (hd : d < 100) :
    (twoDigits d).length = 2 ∧ ∀ c ∈ (twoDigits d).toList, c.isDigit = true := by
  refine ⟨by simp [twoDigits, String.length], ?_⟩
  intro c hc
  simp [twoDigits, String.toList] at hc
  rcases hc with h | h <;> subst h
  · exact charOfNat_digit _ (by omega)
  · exact charOfNat_digit _ (by omega)

theorem mapExcept_ok (f : ℕ → Except String ℚ) (g : ℕ → ℚ) (l : List ℕ)
    (h : ∀ i ∈ l, f i = .ok (g i)) :
    mapExcept f l = .ok (l.map g) := by
  induction l with
  | nil => rfl
  | cons j l ih =>
      simp only [mapExcept]
      rw [h j (by simp), ih (fun i hi => h i (by simp [hi]))]
      rfl

theorem mapExcept_error_mem (f : ℕ → Except String ℚ) (e : String) (l : List ℕ)
    (honly : ∀ i ∈ l, ∀ e2, f i = .error e2 → e2 = e)
    (herr : ∃ i ∈ l, f i = .error e) :
    mapExcept f l = .error e := by
  induction l with
  | nil => simp at herr
  | cons j l ih =>
      simp only [mapExcept]
      cases hfj : f j with
      | error e2 =>
          rw [honly j (by simp) e2 hfj]
      | ok q =>
          obtain ⟨i, hi, hie⟩ := herr
          rcases List.mem_cons.mp hi with rfl | hi2
          · rw [hfj] at hie; exact absurd hie (by simp)
          · rw [ih (fun i hi e2 he => honly i (by simp [hi]) e2 he) ⟨i, hi2, hie⟩]

theorem pow999_overflow : DBL_MAX < |(3 : ℚ) ^ 999| := by
  rw [abs_of_nonneg (by positivity)]
  norm_num [DBL_MAX]

/-! ## Claim theorems -/

/-- Claim C1: for every valid input (first term, common difference, and
num_terms with 1 ≤ n ≤ 1000), both copies of the arithmetic generator
return a sequence whose element at 0-based index i equals a₁ + i·d for
every i in [0, n). -/
theorem arithmetic_element_formula (a d : ℚ) (n : ℤ) (h1 : 1 ≤ n) (h2 : n ≤ 1000)
    (i : ℕ) (hi : (i : ℤ) < n) :
    (Appy.generate_arithmetic_sequence a d n)[i]? = some (a + (i : ℚ) * d) ∧
    (App.generate_arithmetic_sequence a d n)[i]? = some (a + (i : ℚ) * d) := by
  refine ⟨?_, ?_⟩ <;>
  · simp only [Appy.generate_arithmetic_sequence, App.generate_arithmetic_sequence]
    rw [List.getElem?_map, List.getElem?_range (by omega)]
    rfl

/-- Witness for C1 at a₁ = 1, d = 1, n = 5, i = 3: the element is 4. -/
theorem arithmetic_element_formula_witness :
    (1 : ℤ) ≤ 5 ∧ (5 : ℤ) ≤ 1000 ∧ ((3 : ℕ) : ℤ) < 5 ∧
    (Appy.generate_arithmetic_sequence 1 1 5)[(3 : ℕ)]? = some 4 ∧
    (App.generate_arithmetic_sequence 1 1 5)[(3 : ℕ)]? = some 4 := by
  have h := arithmetic_element_formula 1 1 5 (by decide) (by decide) 3 (by decide)
  refine ⟨by decide, by decide, by decide, ?_, ?_⟩
  · rw [h.1]; norm_num
  · rw [h.2]; norm_num

/-- Claim C2: for every valid input (first term, common ratio r, and
num_terms with 1 ≤ n ≤ 1000), the geometric generator returns a sequence
whose element at 0-based index i equals a₁ · rⁱ for every i in [0, n);
this holds for every r with no special-casing (in particular for r = 0
and for negative r, where a positive first term yields an
alternating-sign sequence: the element is positive exactly at even i). -/
theorem geometric_element_formula (a r : ℚ) (n : ℤ) (h1 : 1 ≤ n) (h2 : n ≤ 1000)
    (i : ℕ) (hi : (i : ℤ) < n) :
    (Appy.generate_geometric_sequence a r n)[i]? = some (a * r ^ i) ∧
    (r < 0 → 0 < a → (0 < a * r ^ i ↔ Even i)) := by
  constructor
  · simp only [Appy.generate_geometric_sequence]
    rw [List.getElem?_map, List.getElem?_range (by omega)]
    rfl
  · intro hr ha
    constructor
    · intro hpos
      by_contra hodd
      have ho : Odd i := Nat.not_even_iff_odd.mp hodd
      have hneg : r ^ i < 0 := Odd.pow_neg ho hr
      nlinarith
    · intro he
      have hp : 0 < r ^ i := Even.pow_pos he (by linarith)
      positivity

/-- Witness for C2 at a₁ = 1, r = -2, n = 4, i = 3: the element is -8,
and the alternating-sign equivalence is false on both sides at odd i. -/
theorem geometric_element_formula_witness :
    (1 : ℤ) ≤ 4 ∧ (4 : ℤ) ≤ 1000 ∧ ((3 : ℕ) : ℤ) < 4 ∧ (-2 : ℚ) < 0 ∧ (0 : ℚ) < 1 ∧
    (Appy.generate_geometric_sequence 1 (-2) 4)[(3 : ℕ)]? = some (-8) ∧
    (0 < (1 : ℚ) * (-2) ^ (3 : ℕ) ↔ Even (3 : ℕ)) := by
  have h := geometric_element_formula 1 (-2) 4 (by decide) (by decide) 3 (by decide)
  refine ⟨by decide, by decide, by decide, by norm_num, by norm_num, ?_, ?_⟩
  · rw [h.1]; norm_num
  · exact h.2 (by norm_num) (by norm_num)

/-- Claim C3: for every valid num_terms (1 ≤ n ≤ 1000) and any first
term and step parameter, the arithmetic generators of both files and the
geometric generator return a list of exactly n elements whose first
element equals the first term. -/
theorem generators_length_and_first (a d r : ℚ) (n : ℤ) (h1 : 1 ≤ n) (h2 : n ≤ 1000) :
    ((Appy.generate_arithmetic_sequence a d n).length : ℤ) = n ∧
    ((Appy.generate_geometric_sequence a r n).length : ℤ) = n ∧
    ((App.generate_arithmetic_sequence a d n).length : ℤ) = n ∧
    (Appy.generate_arithmetic_sequence a d n)[0]? = some a ∧
    (Appy.generate_geometric_sequence a r n)[0]? = some a ∧
    (App.generate_arithmetic_sequence a d n)[0]? = some a := by
  have hn : (0 : ℤ) ≤ n := by omega
  refine ⟨?_, ?_, ?_, ?_, ?_, ?_⟩
  · simp [Appy.generate_arithmetic_sequence, Int.toNat_of_nonneg hn]
  · simp [Appy.generate_geometric_sequence, Int.toNat_of_nonneg hn]
  · simp [App.generate_arithmetic_sequence, Int.toNat_of_nonneg hn]
  · simp only [Appy.generate_arithmetic_sequence]
    rw [List.getElem?_map, List.getElem?_range (by omega)]
    simp
  · simp only [Appy.generate_geometric_sequence]
    rw [List.getElem?_map, List.getElem?_range (by omega)]
    simp
  · simp only [App.generate_arithmetic_sequence]
    rw [List.getElem?_map, List.getElem?_range (by omega)]
    simp

/-- Witness for C3 at a₁ = 7, d = 2, r = 3, n = 4. -/
theorem generators_length_and_first_witness :
    (1 : ℤ) ≤ 4 ∧ (4 : ℤ) ≤ 1000 ∧
    ((Appy.generate_arithmetic_sequence 7 2 4).length : ℤ) = 4 ∧
    ((Appy.generate_geometric_sequence 7 3 4).length : ℤ) = 4 ∧
    ((App.generate_arithmetic_sequence 7 2 4).length : ℤ) = 4 ∧
    (Appy.generate_arithmetic_sequence 7 2 4)[0]? = some 7 ∧
    (Appy.generate_geometric_sequence 7 3 4)[0]? = some 7 ∧
    (App.generate_arithmetic_sequence 7 2 4)[0]? = some 7 := by
  have h := generators_length_and_first 7 2 3 4 (by decide) (by decide)
  exact ⟨by decide, by decide, h.1, h.2.1, h.2.2.1, h.2.2.2.1, h.2.2.2.2.1, h.2.2.2.2.2⟩

/-- Claim C4: in both files, main rejects num_terms ≤ 0 (covering 0 and
every negative value) and num_terms > 1000 (covering 1001) with a
validation error before any generation runs — the outcome is never a
generated sequence — while every num_terms in [1, 1000] (covering 1 and
1000) reaches generation and succeeds. -/
theorem validation_boundary (k : SequenceKind) (a p : ℚ) (n : ℤ) :
    ((n ≤ 0 ∨ 1000 < n) →
      (∃ m, Appy.mainOutcome k a p n = .validationError m) ∧
      (∃ m, App.mainOutcome a p n = .validationError m) ∧
      (∀ s, Appy.mainOutcome k a p n ≠ .generated s) ∧
      (∀ s, App.mainOutcome a p n ≠ .generated s)) ∧
    (1 ≤ n → n ≤ 1000 →
      (∃ s, Appy.mainOutcome k a p n = .generated s) ∧
      (∃ s, App.mainOutcome a p n = .generated s)) := by
  constructor
  · intro h
    rcases le_or_lt n 0 with h0 | h0
    · simp [Appy.mainOutcome, App.mainOutcome, h0]
    · have hgt : 1000 < n := by omega
      have hne : ¬ n ≤ 0 := by omega
      simp [Appy.mainOutcome, App.mainOutcome, hne, hgt]
  · intro hl hu
    have h1 : ¬ n ≤ 0 := by omega
    have h2 : ¬ n > 1000 := by omega
    simp [Appy.mainOutcome, App.mainOutcome, h1, h2]

/-- Witness for C4: num_terms 0 and 1001 are rejected and never generate;
num_terms 1 and 1000 generate. -/
theorem validation_boundary_witness :
    ((0 : ℤ) ≤ 0 ∨ 1000 < (0 : ℤ)) ∧ ((-3 : ℤ) ≤ 0 ∨ 1000 < (-3 : ℤ)) ∧
    (∃ m, Appy.mainOutcome .geometric 1 2 0 = .validationError m) ∧
    (∀ s, Appy.mainOutcome .geometric 1 2 0 ≠ .generated s) ∧
    (∃ m, App.mainOutcome 1 1 (-3) = .validationError m) ∧
    (∃ m, Appy.mainOutcome .arithmetic 1 1 1001 = .validationError m) ∧
    (∀ s, App.mainOutcome 1 1 1001 ≠ .generated s) ∧
    (∃ s, Appy.mainOutcome .arithmetic 1 1 1 = .generated s) ∧
    (∃ s, App.mainOutcome 1 1 1000 = .generated s) := by
  have hz := validation_boundary .geometric 1 2 0
  have hneg := validation_boundary .arithmetic 1 1 (-3)
  have hbig := validation_boundary .arithmetic 1 1 1001
  have h1 := validation_boundary .arithmetic 1 1 1
  have h1000 := validation_boundary .arithmetic 1 1 1000
  refine ⟨by norm_num, by left; norm_num, ?_, ?_, ?_, ?_, ?_, ?_, ?_⟩
  · exact (hz.1 (by norm_num)).1
  · exact (hz.1 (by norm_num)).2.2.1
  · exact ((hneg.1 (by norm_num)).2.1).imp (fun m hm => hm)
  · exact (hbig.1 (by norm_num)).1
  · exact (hbig.1 (by norm_num)).2.2.2
  · exact (h1.2 (by norm_num) (by norm_num)).1
  · exact (h1000.2 (by norm_num) (by norm_num)).2

/-- Counterexample to claim C5 as stated: called with num_terms = 0 < 1,
the generators do not fail with an InvalidArgument error — each returns
the ordinary empty list. -/
theorem generators_no_failure_at_zero :
    Appy.generate_arithmetic_sequence 1 1 0 = [] ∧
    Appy.generate_geometric_sequence 1 2 0 = [] ∧
    App.generate_arithmetic_sequence 1 1 0 = [] :=
  ⟨rfl, rfl, rfl⟩

/-- Claim C5 as amended: called with num_terms < 1 the generators do not
fail; each returns the empty list (bounds are rejected upstream in main,
not in the generators). -/
theorem generators_return_empty_below_one (a d r : ℚ) (n : ℤ) (h : n < 1) :
    Appy.generate_arithmetic_sequence a d n = [] ∧
    Appy.generate_geometric_sequence a r n = [] ∧
    App.generate_arithmetic_sequence a d n = [] := by
  have h0 : n.toNat = 0 := by omega
  exact ⟨by simp [Appy.generate_arithmetic_sequence, h0],
         by simp [Appy.generate_geometric_sequence, h0],
         by simp [App.generate_arithmetic_sequence, h0]⟩

/-- Witness for the amended C5 at num_terms = -2 < 1. -/
theorem generators_return_empty_below_one_witness :
    (-2 : ℤ) < 1 ∧
    Appy.generate_arithmetic_sequence 3 4 (-2) = [] ∧
    Appy.generate_geometric_sequence 3 4 (-2) = [] ∧
    App.generate_arithmetic_sequence 3 4 (-2) = [] := by
  have h := generators_return_empty_below_one 3 4 4 (-2) (by decide)
  exact ⟨by decide, h.1, h.2.1, h.2.2⟩

/-- Claim C6: for every valid (a₁, d, n), the sum of the generated
arithmetic sequence equals n/2 · (2·a₁ + (n-1)·d) exactly, under the
exact rational model of float arithmetic, in both files. -/
theorem arithmetic_sum_closed_form (a d : ℚ) (n : ℤ) (h1 : 1 ≤ n) (h2 : n ≤ 1000) :
    (Appy.generate_arithmetic_sequence a d n).sum
      = (n : ℚ) / 2 * (2 * a + ((n : ℚ) - 1) * d) ∧
    (App.generate_arithmetic_sequence a d n).sum
      = (n : ℚ) / 2 * (2 * a + ((n : ℚ) - 1) * d) := by
  have hc : ((n.toNat : ℤ) : ℚ) = (n : ℚ) := by rw [Int.toNat_of_nonneg (by omega)]
  push_cast at hc
  refine ⟨?_, ?_⟩ <;>
  · simp only [Appy.generate_arithmetic_sequence, App.generate_arithmetic_sequence]
    rw [sum_arith_range, hc]

/-- Witness for C6 at a₁ = 1, d = 1, n = 5: the sum is 15. -/
theorem arithmetic_sum_closed_form_witness :
    (1 : ℤ) ≤ 5 ∧ (5 : ℤ) ≤ 1000 ∧
    (Appy.generate_arithmetic_sequence 1 1 5).sum = 15 ∧
    (App.generate_arithmetic_sequence 1 1 5).sum = 15 := by
  have h := arithmetic_sum_closed_form 1 1 5 (by decide) (by decide)
  refine ⟨by decide, by decide, ?_, ?_⟩
  · rw [h.1]; norm_num
  · rw [h.2]; norm_num

/-- Claim C7: the number formatter renders a value that equals its
integer truncation exactly as the integer literal, and any other value
with a decimal point followed by exactly two decimal digits; the
sequence display joins the formatted elements with a comma and a
space. -/
theorem format_number_display (x : ℚ) :
    (x = (intTrunc x : ℚ) → format_number x = toString (intTrunc x)) ∧
    (x ≠ (intTrunc x : ℚ) →
      ∃ s t : String, format_number x = s ++ "." ++ t ∧ t.length = 2 ∧
        ∀ c ∈ t.toList, c.isDigit = true) ∧
    format_sequence [x] = format_number x ∧
    (∀ (y : ℚ) (l : List ℚ), format_sequence (x :: y :: l)
      = format_number x ++ ", " ++ format_sequence (y :: l)) := by
  refine ⟨?_, ?_, ?_, ?_⟩
  · intro h
    simp only [format_number]
    rw [if_pos h]
  · intro h
    refine ⟨(if x < 0 then "-" else "") ++ toString ((roundHalfEven (100 * x)).natAbs / 100),
      twoDigits ((roundHalfEven (100 * x)).natAbs % 100), ?_, ?_, ?_⟩
    · simp [format_number, h, formatTwoDecimals]
    · exact (twoDigits_len_digits _ (Nat.mod_lt _ (by norm_num))).1
    · exact (twoDigits_len_digits _ (Nat.mod_lt _ (by norm_num))).2
  · rfl
  · intro y l
    show String.intercalate ", " (format_number x :: format_number y :: l.map format_number) = _
    rw [intercalate_cons_cons]
    rfl

/-- Witness for C7 at x = 5 (integer case), x = 7/2 (two-decimal case),
and the joins of a one- and a two-element sequence. -/
theorem format_number_display_witness :
    ((5 : ℚ) = (intTrunc 5 : ℚ) ∧ format_number 5 = toString (intTrunc 5)) ∧
    ((7/2 : ℚ) ≠ (intTrunc (7/2) : ℚ) ∧
      ∃ s t : String, format_number (7/2) = s ++ "." ++ t ∧ t.length = 2 ∧
        ∀ c ∈ t.toList, c.isDigit = true) ∧
    format_sequence [(7/2 : ℚ)] = format_number (7/2) ∧
    format_sequence [(1 : ℚ), 2] = format_number 1 ++ ", " ++ format_number 2 := by
  have h5 : (5 : ℚ) = (intTrunc 5 : ℚ) := by norm_num [intTrunc]
  have h72 : (7/2 : ℚ) ≠ (intTrunc (7/2) : ℚ) := by norm_num [intTrunc]
  have hj := (format_number_display 1).2.2.2 2 []
  rw [(format_number_display 2).2.2.1] at hj
  exact ⟨⟨h5, (format_number_display 5).1 h5⟩,
    ⟨h72, (format_number_display (7/2)).2.1 h72⟩,
    (format_number_display (7/2)).2.2.1, hj⟩

/-- Claim C8: the two copies of the arithmetic generator in src/app.py
and src/appy.py are extensionally equal: they return the same sequence
on every input. -/
theorem arithmetic_copies_agree (a d : ℚ) (n : ℤ) :
    App.generate_arithmetic_sequence a d n = Appy.generate_arithmetic_sequence a d n := rfl

/-- Counterexample to claim C9 as stated: called with the finite inputs
first_term = 1, ratio = 3 and the valid num_terms = 1000, the geometric
generator does not return a list — CPython float `**` raises
OverflowError once a power of 3 leaves the finite double range, so the
generator has a failing branch for finite inputs. -/
theorem geometric_overflow_counterexample :
    Appy.generate_geometric_sequence_ovf 1 3 1000 = .error "OverflowError" := by
  apply mapExcept_error_mem
  · intro i hi e2 he
    simp only [powOvf] at he
    by_cases h : DBL_MAX < |(3 : ℚ) ^ i|
    · rw [if_pos h] at he
      simpa using he.symm
    · rw [if_neg h] at he
      simp at he
  · refine ⟨999, List.mem_range.mpr (by norm_num), ?_⟩
    simp only [powOvf]
    rw [if_pos pow999_overflow]

/-- Claim C9 as amended: for num_terms ≤ 0 both generators return the
empty list and raise no error; for num_terms ≥ 1 the arithmetic
generators always return a list of exactly num_terms elements (float
addition and multiplication never raise); the geometric generator,
whose `**` can raise OverflowError, returns a list of exactly num_terms
elements whenever every power of the ratio below num_terms stays within
the finite double range, and fails with OverflowError whenever some
power in that range exceeds it. -/
theorem generators_total_amended (a d r : ℚ) (n : ℤ) :
    (n ≤ 0 →
      Appy.generate_arithmetic_sequence a d n = [] ∧
      Appy.generate_geometric_sequence_ovf a r n = .ok [] ∧
      App.generate_arithmetic_sequence a d n = []) ∧
    (1 ≤ n →
      ((Appy.generate_arithmetic_sequence a d n).length : ℤ) = n ∧
      ((App.generate_arithmetic_sequence a d n).length : ℤ) = n) ∧
    (1 ≤ n → (∀ i : ℕ, (i : ℤ) < n → |r ^ i| ≤ DBL_MAX) →
      ∃ l, Appy.generate_geometric_sequence_ovf a r n = .ok l ∧ ((l.length : ℤ) = n)) ∧
    ((∃ i : ℕ, (i : ℤ) < n ∧ DBL_MAX < |r ^ i|) →
      Appy.generate_geometric_sequence_ovf a r n = .error "OverflowError") := by
  refine ⟨?_, ?_, ?_, ?_⟩
  · intro h
    have h0 : n.toNat = 0 := by omega
    exact ⟨by simp [Appy.generate_arithmetic_sequence, h0],
           by simp [Appy.generate_geometric_sequence_ovf, h0, mapExcept],
           by simp [App.generate_arithmetic_sequence, h0]⟩
  · intro h
    have hn : (0 : ℤ) ≤ n := by omega
    exact ⟨by simp [Appy.generate_arithmetic_sequence, Int.toNat_of_nonneg hn],
           by simp [App.generate_arithmetic_sequence, Int.toNat_of_nonneg hn]⟩
  · intro h1 hb
    refine ⟨(List.range n.toNat).map (fun i : ℕ => a * r ^ i), ?_, ?_⟩
    · apply mapExcept_ok
      intro i hi
      have hlt : (i : ℤ) < n := by
        have := List.mem_range.mp hi
        omega
      have hc : ¬ DBL_MAX < |r ^ i| := not_lt.mpr (hb i hlt)
      simp only [powOvf]
      rw [if_neg hc]
    · simp [Int.toNat_of_nonneg (by omega : (0 : ℤ) ≤ n)]
  · rintro ⟨i, hlt, hovf⟩
    apply mapExcept_error_mem
    · intro j hj e2 he
      simp only [powOvf] at he
      by_cases h : DBL_MAX < |r ^ j|
      · rw [if_pos h] at he
        simpa using he.symm
      · rw [if_neg h] at he
        simp at he
    · refine ⟨i, List.mem_range.mpr (by omega), ?_⟩
      simp only [powOvf]
      rw [if_pos hovf]

/-- Witness for the amended C9: empty at num_terms = -1; three
arithmetic elements at num_terms = 3; three geometric elements at
ratio 2, num_terms = 3 (all powers in range); OverflowError at
ratio 3, num_terms = 1000. -/
theorem generators_total_amended_witness :
    ((-1 : ℤ) ≤ 0 ∧
      Appy.generate_arithmetic_sequence 2 3 (-1) = [] ∧
      Appy.generate_geometric_sequence_ovf 2 3 (-1) = .ok [] ∧
      App.generate_arithmetic_sequence 2 3 (-1) = []) ∧
    (((Appy.generate_arithmetic_sequence 2 3 3).length : ℤ) = 3 ∧
      ((App.generate_arithmetic_sequence 2 3 3).length : ℤ) = 3) ∧
    (∃ l, Appy.generate_geometric_sequence_ovf 2 2 3 = .ok l ∧ ((l.length : ℤ) = 3)) ∧
    Appy.generate_geometric_sequence_ovf 1 3 1000 = .error "OverflowError" := by
  refine ⟨⟨by decide, (generators_total_amended 2 3 3 (-1)).1 (by decide)⟩,
    (generators_total_amended 2 3 3 3).2.1 (by decide), ?_, ?_⟩
  · apply (generators_total_amended 2 3 2 3).2.2.1 (by decide)
    intro i hlt
    rw [abs_of_nonneg (by positivity)]
    calc (2 : ℚ) ^ i ≤ 2 ^ 2 := by
          apply pow_le_pow_right₀ (by norm_num) (by omega)
      _ ≤ DBL_MAX := by norm_num [DBL_MAX]
  · exact (generators_total_amended 1 3 3 1000).2.2.2 ⟨999, by norm_num, pow999_overflow⟩

/-- Claim C10: for every first term a₁ and num_terms n ≥ 1, the
geometric generator with ratio 0 returns a₁ followed by n - 1 zeros,
because 0 ^ 0 evaluates to 1 while every later power of 0 is 0. -/
theorem geometric_ratio_zero_sequence (a : ℚ) (n : ℤ) (h : 1 ≤ n) :
    Appy.generate_geometric_sequence a 0 n = a :: List.replicate (n.toNat - 1) 0 := by
  simp only [Appy.generate_geometric_sequence]
  obtain ⟨m, hm⟩ : ∃ m : ℕ, n.toNat = m + 1 := ⟨n.toNat - 1, by omega⟩
  rw [hm]
  rw [List.range_succ_eq_map, List.map_cons, List.map_map]
  simp [List.eq_replicate_iff]

/-- Witness for C10 at a₁ = 5, n = 3: the sequence is [5, 0, 0]. -/
theorem geometric_ratio_zero_sequence_witness :
    (1 : ℤ) ≤ 3 ∧
    Appy.generate_geometric_sequence 5 0 3 = 5 :: List.replicate ((3 : ℤ).toNat - 1) 0 ∧
    Appy.generate_geometric_sequence 5 0 3 = [5, 0, 0] := by
  have h := geometric_ratio_zero_sequence 5 3 (by decide)
  refine ⟨by decide, h, ?_⟩
  rw [h]
  rfl
